import Mathlib

/-!
Verification of the YARA rule-scanning dispatcher (`yara_scanner.py`).

The development shallowly embeds the core of the scanner: the per-rule
invocation adapter (`scan_with_rule`), the batch dispatcher (`run_scan`),
and the result aggregation / rendering (`output_results`).  External
effects (the subprocess, the thread pool, the clock) are made explicit
parameters: a `ProcOutcome` describes what the external engine process
does for one rule, a list of `FutureOutcome`s describes, in completion
order, what the worker futures deliver, and the render timestamp is
passed in as a string.
-/

namespace YaraScan

/-- The per-rule result dictionary built by `scan_with_rule`
(keys `rule_file`, `rule_name`, `stdout`, `stderr`, `return_code`,
`matches`, `error`). -/
structure Verdict where
  rule_file : String
  rule_name : String
  stdout : String
  stderr : String
  return_code : Int
  «matches» : Bool
  error : Option String
deriving DecidableEq, Repr

/-- Python's `str.strip()` with no argument: remove leading and trailing
whitespace.  Written over the character list so that it evaluates by
kernel reduction on concrete inputs. -/
def pyStrip (s : String) : String :=
  String.mk
    (((s.toList.dropWhile Char.isWhitespace).reverse.dropWhile
        Char.isWhitespace).reverse)

/-- `os.path.basename`: the final path component. -/
def basename (p : String) : String :=
  (p.splitOn "/").getLastD ""

/-- Behaviour of the external engine process for one invocation:
it runs to completion with captured stdout/stderr and an exit status,
it exceeds the timeout, or launching/running it raises an exception
(executable missing, permission denied, ...). -/
inductive ProcOutcome where
  | completes (stdout stderr : String) (returncode : Int)
  | hangs
  | launchFails (msg : String)
deriving DecidableEq, Repr

/-- The Python exceptions `subprocess.run` can raise here:
`subprocess.TimeoutExpired`, or any other `Exception`. -/
inductive PyExn where
  | timeoutExpired
  | exception (msg : String)
deriving DecidableEq, Repr

/-- The `CompletedProcess` value returned by a successful `subprocess.run`. -/
structure CompletedProcess where
  stdout : String
  stderr : String
  returncode : Int
deriving DecidableEq, Repr

/-- `subprocess.run(cmd, capture_output=True, text=True, timeout=...)`:
returns a `CompletedProcess`, or raises `TimeoutExpired` when the process
exceeds the timeout, or raises some other `Exception` on launch failure. -/
def subprocess_run (outcome : ProcOutcome) : Except PyExn CompletedProcess :=
  match outcome with
  | .completes out err code => .ok ⟨out, err, code⟩
  | .hangs => .error .timeoutExpired
  | .launchFails m => .error (.exception m)

/-- `YaraScanner.scan_with_rule` (yara_scanner.py lines 45-103).
The `Except PyExn` return type records whether the call can propagate a
Python exception to its caller: the `try`/`except` structure of the source
is mirrored exactly, each `except` arm converting the exception into an
`.ok` verdict.  Python's `.strip()` is embedded as `pyStrip`. -/
def scan_with_rule (timeout : Nat) (rule_file target_file : String)
    (outcome : ProcOutcome) : Except PyExn Verdict :=
  let rule_name := basename rule_file
  let _ := target_file
  match subprocess_run outcome with
  | .ok result =>
      .ok { rule_file := rule_file, rule_name := rule_name,
            stdout := pyStrip result.stdout, stderr := pyStrip result.stderr,
            return_code := result.returncode,
            «matches» := pyStrip result.stdout != "",
            error := if pyStrip result.stderr = "" then none
                     else some (pyStrip result.stderr) }
  | .error .timeoutExpired =>
      .ok { rule_file := rule_file, rule_name := rule_name,
            stdout := "",
            stderr := "Timeout after " ++ toString timeout ++ " seconds",
            return_code := -1, «matches» := false,
            error := some ("Timeout after " ++ toString timeout ++ " seconds") }
  | .error (.exception e) =>
      .ok { rule_file := rule_file, rule_name := rule_name,
            stdout := "", stderr := e,
            return_code := -1, «matches» := false,
            error := some e }

/-- What one worker future delivers to the collection loop of `run_scan`:
either the verdict computed by `scan_with_rule`, or an exception raised
while producing the result (caught by the `except` in the loop, which
prints `Error processing rule ...` and appends nothing). -/
inductive FutureOutcome where
  | ok (v : Verdict)
  | raised (rule : String) (msg : String)
deriving DecidableEq, Repr

/-- The verdicts appended by the `as_completed` loop of `run_scan`,
in completion order: futures that raised are skipped. -/
def collectResults (futures : List FutureOutcome) : List Verdict :=
  futures.filterMap fun f =>
    match f with
    | .ok v => some v
    | .raised _ _ => none

/-- The console messages printed by the `as_completed` loop of
`run_scan`: one `Error processing rule ...` line per raised future. -/
def collectMessages (futures : List FutureOutcome) : List String :=
  futures.filterMap fun f =>
    match f with
    | .ok _ => none
    | .raised r m => some ("Error processing rule " ++ r ++ ": " ++ m)

/-- Observable outcome of one `run_scan` call: the contents of
`self.results` afterwards, how many adapter invocations were performed,
and the error messages printed to the console. -/
structure ScanOutcome where
  results : List Verdict
  invocations : Nat
  messages : List String
deriving DecidableEq, Repr

/-- `YaraScanner.run_scan` (yara_scanner.py lines 105-135).
`results0` is `self.results` on entry; `targetIsFile` is the value of
`os.path.isfile(self.target_file)` (and that `target_file` is set);
`rule_files` is what `find_rule_files` discovered; `futures` lists, in
completion order, what the worker futures deliver.  On a precondition
violation the method prints an error and returns with `self.results`
untouched and no invocation performed; otherwise every rule is invoked
and the delivered verdicts are appended in completion order. -/
def run_scan (results0 : List Verdict) (targetIsFile : Bool)
    (rule_files : List String) (futures : List FutureOutcome) : ScanOutcome :=
  if targetIsFile = false then
    { results := results0, invocations := 0,
      messages := ["Error: Target file not found"] }
  else if rule_files.isEmpty then
    { results := results0, invocations := 0,
      messages := ["No rule files found to scan with."] }
  else
    { results := results0 ++ collectResults futures,
      invocations := futures.length,
      messages := collectMessages futures }

/-- The sort key of `sorted(self.results, key=lambda x: not x["matches"])`:
`False` (matches) orders before `True` (no match). -/
def sortKey (v : Verdict) : Bool :=
  !v.«matches»

/-- Stable insertion of a verdict into an already-sorted list: the new
element goes before the first element whose key is not smaller, which is
exactly the stability discipline of Python's `sorted`. -/
def insertV (v : Verdict) : List Verdict → List Verdict
  | [] => [v]
  | w :: ws => if sortKey v ≤ sortKey w then v :: w :: ws else w :: insertV v ws

/-- `sorted(self.results, key=lambda x: not x["matches"])`
(yara_scanner.py line 174): a stable sort on the two-valued key, embedded
as a stable insertion sort (any two stable sorts of the same keyed list
coincide). -/
def sortResults (l : List Verdict) : List Verdict :=
  l.foldr insertV []

/-- The constructor arguments of `YaraScanner.__init__` that the
aggregation and rendering read. -/
structure ScannerConfig where
  yara_path : String
  rules_dir : String
  target_file : String
  output_format : String
  max_workers : Nat
  timeout : Nat
deriving DecidableEq, Repr

/-- The header lines of the text rendering (yara_scanner.py lines
162-171); `now` is `datetime.now().isoformat()` sampled inside
`output_results`. -/
def headerLines (cfg : ScannerConfig) (results : List Verdict)
    (now : String) : List String :=
  ["YARA Scan Results",
   "=====================================",
   "Target File: " ++ cfg.target_file,
   "Rules Directory: " ++ cfg.rules_dir,
   "Scan Time: " ++ now,
   "Total Rules: " ++ toString results.length,
   "Matching Rules: " ++ toString (results.filter (fun v => v.«matches»)).length,
   "=====================================\n"]

/-- The lines one verdict contributes to the text rendering
(yara_scanner.py lines 176-183): a match block for a matched verdict, an
error line for an errored non-match, nothing for a silent non-match. -/
def renderVerdictText (r : Verdict) : List String :=
  if r.«matches» then
    ["[+] MATCH: " ++ r.rule_name, r.stdout,
     "-------------------------------------"]
  else
    match r.error with
    | some e => ["[!] ERROR: " ++ r.rule_name ++ " - " ++ e]
    | none => []

/-- The text rendering of `output_results` (yara_scanner.py lines
160-185): header lines followed by the per-verdict lines in sorted
order, joined by newlines. -/
def text_output (cfg : ScannerConfig) (results : List Verdict)
    (now : String) : String :=
  String.intercalate "\n"
    (headerLines cfg results now ++ (sortResults results).flatMap renderVerdictText)

/-- The `output_data` record of the structured (JSON) rendering
(yara_scanner.py lines 144-152). -/
structure JsonOutput where
  scan_time : String
  target_file : String
  rules_dir : String
  total_rules : Nat
  matching_rules : Nat
  results : List Verdict
deriving DecidableEq, Repr

/-- Builds the structured-mode record (yara_scanner.py lines 144-152). -/
def json_output (cfg : ScannerConfig) (results : List Verdict)
    (now : String) : JsonOutput :=
  { scan_time := now,
    target_file := cfg.target_file,
    rules_dir := cfg.rules_dir,
    total_rules := results.length,
    matching_rules := (results.filter (fun v => v.«matches»)).length,
    results := results }

/-- What `output_results` writes (to the output file or stdout):
either the structured record or the text string. -/
inductive Rendered where
  | textOut (s : String)
  | structuredOut (j : JsonOutput)
deriving DecidableEq, Repr

/-- `YaraScanner.output_results` (yara_scanner.py lines 137-192),
as a state-passing function: it reads `self.results` (second component of
the result: the collection after the call — the method contains no write
to it, `sorted` returns a fresh list) and produces the rendering for the
configured mode.  `now` is the `datetime.now().isoformat()` reading. -/
def output_results (cfg : ScannerConfig) (results : List Verdict)
    (now : String) : Rendered × List Verdict :=
  if cfg.output_format = "json" then
    (.structuredOut (json_output cfg results now), results)
  else
    (.textOut (text_output cfg results now), results)

/-- Observable outcome of one whole run of `main`. -/
structure MainResult where
  exit_code : Nat
  scan : ScanOutcome
  rendered : Rendered
deriving DecidableEq, Repr

/-- `main` (yara_scanner.py lines 195-217): builds the scanner from the
parsed arguments, calls `run_scan`, then unconditionally calls
`output_results`; the script never calls `sys.exit`, so the process exit
status is 0 on every path that reaches the end of `main`. -/
def main (cfg : ScannerConfig) (targetIsFile : Bool)
    (rule_files : List String) (futures : List FutureOutcome)
    (now : String) : MainResult :=
  let so := run_scan [] targetIsFile rule_files futures
  { exit_code := 0,
    scan := so,
    rendered := (output_results cfg so.results now).1 }

/-- The verdict carried by the `.ok` result of `scan_with_rule`.  Every
arm of `scan_with_rule` returns `.ok`, so the `.error` arm below is
unreachable (its filler record is never produced). -/
def scanVerdict (timeout : Nat) (rule_file target_file : String)
    (outcome : ProcOutcome) : Verdict :=
  match scan_with_rule timeout rule_file target_file outcome with
  | .ok v => v
  | .error _ =>
      { rule_file := "", rule_name := "", stdout := "", stderr := "",
        return_code := 0, «matches» := false, error := none }

/-- A sample matched verdict for rule `a.yar`. -/
def vMatchA : Verdict :=
  { rule_file := "a.yar", rule_name := "a.yar", stdout := "match A",
    stderr := "", return_code := 0, «matches» := true, error := none }

/-- A sample matched verdict for rule `b.yar`. -/
def vMatchB : Verdict :=
  { rule_file := "b.yar", rule_name := "b.yar", stdout := "match B",
    stderr := "", return_code := 0, «matches» := true, error := none }

/-- A sample errored non-match. -/
def vErr : Verdict :=
  { rule_file := "e.yar", rule_name := "e.yar", stdout := "",
    stderr := "syntax error", return_code := 1, «matches» := false,
    error := some "syntax error" }

/-- A sample silent non-match (no output, no error). -/
def vSilent : Verdict :=
  { rule_file := "s.yar", rule_name := "s.yar", stdout := "",
    stderr := "", return_code := 0, «matches» := false, error := none }

/-- A sample scanner configuration in text output mode. -/
def cfgText : ScannerConfig :=
  { yara_path := "yara64.exe", rules_dir := "rules",
    target_file := "payload.bin", output_format := "text",
    max_workers := 4, timeout := 20 }

/-- A sample scanner configuration in structured (JSON) output mode. -/
def cfgJson : ScannerConfig :=
  { cfgText with output_format := "json" }

/-! ## Helper lemmas -/

/-- `scan_with_rule` evaluates to `.ok` of `scanVerdict` on every outcome. -/
theorem scan_with_rule_eq_ok (t : Nat) (r f : String) (o : ProcOutcome) :
    scan_with_rule t r f o = Except.ok (scanVerdict t r f o) := by
  cases o <;> rfl

theorem collectResults_cons_ok (v : Verdict) (fs : List FutureOutcome) :
    collectResults (.ok v :: fs) = v :: collectResults fs := rfl

theorem collectResults_cons_raised (r m : String) (fs : List FutureOutcome) :
    collectResults (.raised r m :: fs) = collectResults fs := rfl

/-- Dropping at least one raised future makes the collection strictly
shorter than the future list. -/
theorem collectResults_length_lt (futures : List FutureOutcome) (r m : String)
    (h : FutureOutcome.raised r m ∈ futures) :
    (collectResults futures).length < futures.length := by
  induction futures with
  | nil => cases h
  | cons f fs ih =>
    cases f with
    | ok v =>
      have hr : FutureOutcome.raised r m ∈ fs := by
        rcases List.mem_cons.1 h with h1 | h1
        · cases h1
        · exact h1
      rw [collectResults_cons_ok]
      simpa [List.length_cons] using Nat.succ_lt_succ (ih hr)
    | raised r' m' =>
      rw [collectResults_cons_raised]
      have := List.length_filterMap_le
        (fun f => match f with | .ok v => some v | .raised _ _ => none) fs
      simp only [List.length_cons]
      exact Nat.lt_succ_of_le this

/-- Inserting a matched verdict puts it at the head: its key `false` is
minimal. -/
theorem insertV_matched (v : Verdict) (hv : v.«matches» = true)
    (L : List Verdict) : insertV v L = v :: L := by
  cases L with
  | nil => rfl
  | cons w ws =>
    have hc : sortKey v ≤ sortKey w := by
      unfold sortKey
      rw [hv]
      exact Bool.false_le _
    simp [insertV, if_pos hc]

/-- Inserting a non-matched verdict walks past a block of matched
verdicts. -/
theorem insertV_not_matched_append (v : Verdict) (hv : v.«matches» = false)
    (Ms Ns : List Verdict) (hMs : ∀ w ∈ Ms, w.«matches» = true) :
    insertV v (Ms ++ Ns) = Ms ++ insertV v Ns := by
  induction Ms with
  | nil => rfl
  | cons w ws ih =>
    have hw : w.«matches» = true := hMs w (List.mem_cons_self _ _)
    have hc : ¬ sortKey v ≤ sortKey w := by
      unfold sortKey
      rw [hv, hw]
      decide
    simp only [List.cons_append, insertV, if_neg hc]
    exact congrArg (w :: ·) (ih fun x hx => hMs x (List.mem_cons_of_mem _ hx))

/-- Inserting a non-matched verdict before a block of non-matched
verdicts puts it at the head (stability: the inserted element is the
earlier one). -/
theorem insertV_not_matched_front (v : Verdict) (hv : v.«matches» = false)
    (Ns : List Verdict) (hNs : ∀ w ∈ Ns, w.«matches» = false) :
    insertV v Ns = v :: Ns := by
  cases Ns with
  | nil => rfl
  | cons w ws =>
    have hw : w.«matches» = false := hNs w (List.mem_cons_self _ _)
    have hc : sortKey v ≤ sortKey w := by
      unfold sortKey
      rw [hv, hw]
    simp [insertV, if_pos hc]

/-- The stable sort on the two-valued key is exactly the stable
partition: matched verdicts first, each group in input order. -/
theorem sortResults_eq (l : List Verdict) :
    sortResults l
      = l.filter (fun v => v.«matches») ++ l.filter (fun v => !v.«matches») := by
  induction l with
  | nil => rfl
  | cons v l ih =>
    show insertV v (sortResults l) = _
    rw [ih]
    by_cases hv : v.«matches» = true
    · rw [insertV_matched v hv]
      simp [List.filter_cons, hv]
    · have hv' : v.«matches» = false := by
        simpa using hv
      have hMs : ∀ w ∈ l.filter (fun v => v.«matches»), w.«matches» = true :=
        fun w hw => (List.mem_filter.1 hw).2
      have hNs : ∀ w ∈ l.filter (fun v => !v.«matches»), w.«matches» = false := by
        intro w hw
        have := (List.mem_filter.1 hw).2
        simpa using this
      rw [insertV_not_matched_append v hv' _ _ hMs,
          insertV_not_matched_front v hv' _ hNs]
      simp [List.filter_cons, hv']

/-! ## Claim theorems -/

/-- C1, counterexample: on a completed engine process with non-empty
stdout and exit code 1, the verdict still has `matches = true`, refuting
"any non-zero exit yields matched = false". -/
theorem matched_true_with_nonzero_exit_code :
    (scanVerdict 30 "rule.yar" "payload.bin"
        (.completes "0x0:a: match" "" 1)).«matches» = true ∧
    (scanVerdict 30 "rule.yar" "payload.bin"
        (.completes "0x0:a: match" "" 1)).return_code = 1 := by
  constructor <;> decide

/-- C1 (amended): for a completed engine process the `matches` flag is
true iff the trimmed stdout is non-empty; the exit status is recorded in
the verdict but plays no role in the `matches` determination. -/
theorem scan_with_rule_matches_iff_stdout_nonempty
    (t : Nat) (r f out err : String) (code : Int) :
    ((scanVerdict t r f (.completes out err code)).«matches» = true
        ↔ pyStrip out ≠ "") ∧
    (scanVerdict t r f (.completes out err code)).return_code = code := by
  constructor
  · simp [scanVerdict, scan_with_rule, subprocess_run]
  · rfl

/-- C2, counterexample: a completed process with non-empty stdout and
non-empty stderr yields a verdict with `matches = true` and a populated
`error` simultaneously, refuting the mutual-exclusion invariant. -/
theorem matched_true_with_error_set :
    (scanVerdict 30 "rule.yar" "payload.bin"
        (.completes "match" "warning: slow rule" 0)).«matches» = true ∧
    (scanVerdict 30 "rule.yar" "payload.bin"
        (.completes "match" "warning: slow rule" 0)).error
      = some "warning: slow rule" := by
  constructor <;> decide

/-- C2 (amended): a timeout or launch failure always forces
`matches = false` together with a set `error`; but on normal completion a
set `error` (non-empty trimmed stderr) can coexist with `matches = true`,
so the mutual-exclusion invariant holds only on the failure paths. -/
theorem timeout_or_launch_failure_forces_no_match
    (t : Nat) (r f m : String) :
    (scanVerdict t r f .hangs).«matches» = false ∧
    (scanVerdict t r f .hangs).error.isSome = true ∧
    (scanVerdict t r f (.launchFails m)).«matches» = false ∧
    (scanVerdict t r f (.launchFails m)).error.isSome = true :=
  ⟨rfl, rfl, rfl, rfl⟩

/-- C4, counterexample: the verdict of a timed-out invocation has a
non-empty `stderr` (it carries the timeout message), refuting "stdout and
stderr fields are empty". -/
theorem timeout_verdict_stderr_nonempty :
    (scanVerdict 30 "rule.yar" "payload.bin" .hangs).stderr ≠ "" := by
  decide

/-- C4 (amended): a timed-out invocation yields `matches = false`, the
sentinel exit status `-1` (negative, hence distinct from every real
process exit code), an `error` naming the configured timeout value, an
empty `stdout`, and a `stderr` carrying the same timeout message rather
than being empty. -/
theorem timeout_verdict_fields (t : Nat) (r f : String) :
    (scanVerdict t r f .hangs).«matches» = false ∧
    (scanVerdict t r f .hangs).return_code = -1 ∧
    (scanVerdict t r f .hangs).return_code < 0 ∧
    (scanVerdict t r f .hangs).error
      = some ("Timeout after " ++ toString t ++ " seconds") ∧
    (scanVerdict t r f .hangs).stdout = "" ∧
    (scanVerdict t r f .hangs).stderr
      = "Timeout after " ++ toString t ++ " seconds" := by
  have h2 : (scanVerdict t r f .hangs).return_code = -1 := rfl
  refine ⟨rfl, h2, ?_, rfl, rfl, rfl⟩
  rw [h2]
  decide

/-- C5: `scan_with_rule` never propagates an exception to its caller:
on every outcome of the subprocess (completion, timeout, or a raised
exception) it returns an `.ok` verdict, never an `.error`. -/
theorem scan_with_rule_never_raises (t : Nat) (r f : String)
    (o : ProcOutcome) :
    ∃ v, scan_with_rule t r f o = Except.ok v :=
  ⟨scanVerdict t r f o, scan_with_rule_eq_ok t r f o⟩

/-- C3, counterexample: the same batch (target present, rules `a.yar`,
`b.yar` discovered in that order, both matching) rendered under two
different completion interleavings of the workers produces two different
report orders; under the completion order `[vMatchB, vMatchA]` the report
lists `vMatchB` first, contrary to discovery order.  The report ordering
therefore follows completion order, not discovery order, and is not
deterministic across interleavings. -/
theorem report_order_depends_on_completion_order :
    sortResults (run_scan [] true ["a.yar", "b.yar"]
        [.ok vMatchB, .ok vMatchA]).results = [vMatchB, vMatchA] ∧
    sortResults (run_scan [] true ["a.yar", "b.yar"]
        [.ok vMatchA, .ok vMatchB]).results = [vMatchA, vMatchB] ∧
    List.Perm ([FutureOutcome.ok vMatchB, .ok vMatchA])
      ([FutureOutcome.ok vMatchA, .ok vMatchB]) := by
  refine ⟨by decide, by decide, List.Perm.swap _ _ _⟩

/-- C3 (amended): the report's ordered sequence is a stable partition of
the collected verdicts in collection (completion) order: every matched
verdict precedes every non-matched one and each group preserves the
relative collection order, which is a permutation of the collected set —
but that order derives from completion order, not discovery order. -/
theorem report_is_stable_partition_of_collection_order
    (r0 : String) (rules : List String) (futures : List FutureOutcome) :
    sortResults (run_scan [] true (r0 :: rules) futures).results
      = (collectResults futures).filter (fun v => v.«matches»)
        ++ (collectResults futures).filter (fun v => !v.«matches») ∧
    List.Perm (sortResults (run_scan [] true (r0 :: rules) futures).results)
      (collectResults futures) := by
  have hres : (run_scan [] true (r0 :: rules) futures).results
      = collectResults futures := by
    simp [run_scan]
  rw [hres, sortResults_eq]
  exact ⟨rfl, List.filter_append_perm _ _⟩

/-- C6, counterexample: with the target file missing (and likewise with
an empty rule list) the process still finishes with exit status 0 — the
whole run is reported as a success, not as a tool-level failure, and
`output_results` still renders a report. -/
theorem precondition_violation_exits_zero :
    (main cfgText false ["a.yar"] [] "2025-01-01T00:00:00").exit_code = 0 ∧
    (main cfgText true [] [] "2025-01-01T00:00:00").exit_code = 0 := by
  exact ⟨rfl, rfl⟩

/-- C6 (amended): a missing target or an empty discovered rule list makes
the batch abort before any invocation runs (zero invocations, nothing
collected) and prints a message naming the missing resource — but the run
then continues: a report over the empty collection is still rendered and
the process exit status is 0, so no tool-level failure is signalled. -/
theorem precondition_violation_aborts_without_invocations
    (cfg : ScannerConfig) (rule_files : List String)
    (futures : List FutureOutcome) (now : String) :
    ((main cfg false rule_files futures now).scan.invocations = 0 ∧
     (main cfg false rule_files futures now).scan.results = [] ∧
     (main cfg false rule_files futures now).scan.messages
       = ["Error: Target file not found"] ∧
     (main cfg false rule_files futures now).exit_code = 0) ∧
    ((main cfg true [] futures now).scan.invocations = 0 ∧
     (main cfg true [] futures now).scan.results = [] ∧
     (main cfg true [] futures now).scan.messages
       = ["No rule files found to scan with."] ∧
     (main cfg true [] futures now).exit_code = 0) :=
  ⟨⟨rfl, rfl, rfl, rfl⟩, ⟨rfl, rfl, rfl, rfl⟩⟩

/-- C7, counterexample: rendering the same collected verdicts twice is
not byte-identical, because the output embeds the render-time clock
reading (`datetime.now()` inside `output_results`): two renderings at
different timestamps differ, in text mode and in structured mode. -/
theorem render_differs_across_timestamps :
    (output_results cfgText [] "2025-01-01T00:00:00").1
      ≠ (output_results cfgText [] "2025-01-01T00:00:01").1 ∧
    (output_results cfgJson [] "2025-01-01T00:00:00").1
      ≠ (output_results cfgJson [] "2025-01-01T00:00:01").1 := by
  constructor <;> decide

/-- C7 (amended): rendering never mutates the collected verdicts, and it
is a pure function of the collection and the render timestamp: two
renderings made at the same clock reading yield identical output. -/
theorem render_pure_given_timestamp (cfg : ScannerConfig)
    (results : List Verdict) (now now' : String) (h : now' = now) :
    (output_results cfg results now').1 = (output_results cfg results now).1 ∧
    (output_results cfg results now).2 = results := by
  subst h
  refine ⟨rfl, ?_⟩
  by_cases hc : cfg.output_format = "json" <;> simp [output_results, hc]

/-- Witness for C7 (amended) at a concrete configuration, collection and
timestamp. -/
theorem render_pure_given_timestamp_witness :
    (output_results cfgText [vMatchA] "2025-01-01T00:00:00").1
      = (output_results cfgText [vMatchA] "2025-01-01T00:00:00").1 ∧
    (output_results cfgText [vMatchA] "2025-01-01T00:00:00").2 = [vMatchA] :=
  render_pure_given_timestamp cfgText [vMatchA]
    "2025-01-01T00:00:00" "2025-01-01T00:00:00" rfl

/-- C8: in the text rendering, each matched verdict contributes a block
(`[+] MATCH` header, its stdout, a separator), each errored non-match
contributes one `[!] ERROR` line naming the rule and its error
description, and a non-matched verdict with no error contributes nothing;
the full text output is the header followed by these per-verdict lines,
matched group first. -/
theorem text_rendering_per_verdict_content (cfg : ScannerConfig)
    (results : List Verdict) (now : String) :
    (∀ v ∈ results, v.«matches» = true →
       renderVerdictText v
         = ["[+] MATCH: " ++ v.rule_name, v.stdout,
            "-------------------------------------"]) ∧
    (∀ v ∈ results, ∀ e, v.«matches» = false → v.error = some e →
       renderVerdictText v = ["[!] ERROR: " ++ v.rule_name ++ " - " ++ e]) ∧
    (∀ v ∈ results, v.«matches» = false → v.error = none →
       renderVerdictText v = []) ∧
    text_output cfg results now
      = String.intercalate "\n"
          (headerLines cfg results now
            ++ ((results.filter (fun v => v.«matches»)).flatMap renderVerdictText
              ++ (results.filter (fun v => !v.«matches»)).flatMap
                  renderVerdictText)) := by
  refine ⟨?_, ?_, ?_, ?_⟩
  · intro v _ hm
    simp [renderVerdictText, hm]
  · intro v _ e hm he
    simp [renderVerdictText, hm, he]
  · intro v _ hm he
    simp [renderVerdictText, hm, he]
  · unfold text_output
    rw [sortResults_eq, List.flatMap_append]

/-- Witness for C8 at a concrete verdict collection containing a match,
an errored non-match, and a silent non-match. -/
theorem text_rendering_per_verdict_content_witness :
    renderVerdictText vMatchA
      = ["[+] MATCH: " ++ vMatchA.rule_name, vMatchA.stdout,
         "-------------------------------------"] ∧
    renderVerdictText vErr
      = ["[!] ERROR: " ++ vErr.rule_name ++ " - " ++ "syntax error"] ∧
    renderVerdictText vSilent = [] :=
  ⟨(text_rendering_per_verdict_content cfgText [vMatchA, vErr, vSilent]
      "2025-01-01T00:00:00").1 vMatchA (by decide) rfl,
   (text_rendering_per_verdict_content cfgText [vMatchA, vErr, vSilent]
      "2025-01-01T00:00:00").2.1 vErr (by decide) "syntax error" rfl rfl,
   (text_rendering_per_verdict_content cfgText [vMatchA, vErr, vSilent]
      "2025-01-01T00:00:00").2.2.1 vSilent (by decide) rfl rfl⟩

/-- C9: `self.results` is only ever appended to — after a second
`run_scan` on the same scanner (both batches passing the preconditions)
the collection is the first batch's verdicts followed by the second
batch's verdicts, and the matched counter over it covers both batches. -/
theorem results_accumulate_across_runs
    (r1 : String) (rules1 : List String) (f1 : List FutureOutcome)
    (r2 : String) (rules2 : List String) (f2 : List FutureOutcome) :
    (run_scan (run_scan [] true (r1 :: rules1) f1).results
        true (r2 :: rules2) f2).results
      = collectResults f1 ++ collectResults f2 ∧
    ((run_scan (run_scan [] true (r1 :: rules1) f1).results
        true (r2 :: rules2) f2).results.filter (fun v => v.«matches»)).length
      = ((collectResults f1).filter (fun v => v.«matches»)).length
        + ((collectResults f2).filter (fun v => v.«matches»)).length := by
  constructor
  · simp [run_scan]
  · simp [run_scan, List.filter_append]

/-- C10: both renderings report `total_rules` as the number of collected
verdicts, not the number of discovered rule files: when a worker future
raises, its verdict is dropped from the collection with only a console
message, so the reported total falls below the discovered-rule count. -/
theorem reported_total_is_collected_count
    (cfg : ScannerConfig) (results : List Verdict) (now : String)
    (r0 : String) (rules : List String) (futures : List FutureOutcome)
    (r m : String)
    (hlen : futures.length = (r0 :: rules).length)
    (hr : FutureOutcome.raised r m ∈ futures) :
    (json_output cfg results now).total_rules = results.length ∧
    ("Total Rules: " ++ toString results.length)
      ∈ headerLines cfg results now ∧
    (run_scan [] true (r0 :: rules) futures).results.length
      < (r0 :: rules).length ∧
    ("Error processing rule " ++ r ++ ": " ++ m)
      ∈ (run_scan [] true (r0 :: rules) futures).messages := by
  refine ⟨rfl, ?_, ?_, ?_⟩
  · simp [headerLines]
  · have h := collectResults_length_lt futures r m hr
    have hres : (run_scan [] true (r0 :: rules) futures).results
        = collectResults futures := by
      simp [run_scan]
    rw [hres, ← hlen]
    exact h
  · have hmsg : (run_scan [] true (r0 :: rules) futures).messages
        = collectMessages futures := by
      simp [run_scan]
    rw [hmsg]
    exact List.mem_filterMap.2 ⟨.raised r m, hr, rfl⟩

/-- Witness for C10: two discovered rules, one worker future raises, so
one verdict is collected and the reported total is 1 < 2. -/
theorem reported_total_is_collected_count_witness :
    (json_output cfgText [vMatchA] "2025-01-01T00:00:00").total_rules
      = [vMatchA].length ∧
    ("Total Rules: " ++ toString [vMatchA].length)
      ∈ headerLines cfgText [vMatchA] "2025-01-01T00:00:00" ∧
    (run_scan [] true ["a.yar", "b.yar"]
        [.ok vMatchA, .raised "b.yar" "boom"]).results.length
      < (["a.yar", "b.yar"] : List String).length ∧
    ("Error processing rule " ++ "b.yar" ++ ": " ++ "boom")
      ∈ (run_scan [] true ["a.yar", "b.yar"]
          [.ok vMatchA, .raised "b.yar" "boom"]).messages :=
  reported_total_is_collected_count cfgText [vMatchA] "2025-01-01T00:00:00"
    "a.yar" ["b.yar"] [.ok vMatchA, .raised "b.yar" "boom"] "b.yar" "boom"
    rfl (by decide)

end YaraScan
